import Mathlib

/-!
Verification of the repmeup-backend ingestion / enrichment pipeline.

The definitions below are a shallow embedding of the JavaScript source:
  * `src/models/*` schemas become Lean structures (JS `undefined` becomes
    `Option`, enum strings stay strings, numbers become `Rat`/`Int`/`Nat`);
  * the Mongo collection of interactions becomes an explicit
    `List Interaction` threaded through each operation;
  * fallible steps become `Except`/`Option`, and every external call
    (OpenAI, platform APIs, Mongo queries that the function does not own)
    becomes an explicit input describing that call's outcome.
-/

namespace RepMeUp

/-- An AI reply suggestion, mirroring the object stored on
`interaction.aiSuggestion` by `aiService.generateResponse`
(`content`, `confidence`; the timestamp is elided). -/
structure AiSuggestion where
  content : String
  confidence : Rat
  deriving Repr, DecidableEq

/-- The canonical `Interaction` document, embedding the fields of the
Mongoose model that the pipeline reads or writes.  Fields that a freshly
created document may lack (`undefined` in JS) are `Option`s.  Enumerated
values (`platform`, `type`, `status`, `sentiment`, `intent`, `urgency`,
`priority`) are kept as the literal strings the source compares against. -/
structure Interaction where
  id : String
  organization : String
  platform : String
  type : String
  platformId : String
  content : String
  authorPlatformId : Option String := none
  authorName : Option String := none
  authorUsername : Option String := none
  parentId : Option String := none
  threadId : Option String := none
  /-- `metadata.postId` -/
  postId : Option String := none
  /-- `metadata.videoId` -/
  videoId : Option String := none
  /-- `metadata.locationId` -/
  locationId : Option String := none
  platformCreatedAt : Int := 0
  /-- Mongo `createdAt` timestamp (milliseconds). -/
  createdAt : Int := 0
  status : String := "unread"
  isRead : Bool := false
  sentiment : Option String := none
  sentimentScore : Option Rat := none
  sentimentConfidence : Option Rat := none
  intent : Option String := none
  topics : Option (List String) := none
  aiSuggestion : Option AiSuggestion := none
  autoReplyEligible : Option Bool := none
  assignedTo : Option String := none
  priority : Option String := none
  urgency : Option String := none
  rating : Option Nat := none
  deriving Repr, DecidableEq

/-- `aiService.canAutoReply` (src/services/aiService.js).  Each guard is the
direct translation of the JS test; note that when `sentimentConfidence` is
absent the JS comparison `undefined < 0.7` evaluates to `false`, which the
`Option.casesOn`-style match reproduces. -/
def canAutoReply (i : Interaction) : Bool :=
  if i.sentiment = some "negative" then false
  else if (match i.sentimentConfidence with
           | some c => decide (c < 7/10)
           | none => false) then false
  else if i.intent = some "complaint" then false
  else if i.urgency = some "urgent" ∨ i.urgency = some "high" then false
  else true

/-- A bare interaction used for concrete evaluations of `canAutoReply`. -/
def baseInteraction : Interaction :=
  { id := "i1", organization := "org1", platform := "instagram"
    type := "comment", platformId := "p1", content := "hello" }

end RepMeUp

namespace RepMeUp

/-- C1: `canAutoReply` returns `false` exactly when sentiment is negative, or
the stored confidence is below 0.7, or the intent is complaint, or urgency is
high or urgent; boundary cases: confidence exactly 0.70 is eligible,
0.69 is ineligible, negative sentiment is ineligible for every confidence,
and complaint intent is ineligible even with positive sentiment. -/
theorem canAutoReply_spec :
    (∀ i : Interaction,
      canAutoReply i = false ↔
        (i.sentiment = some "negative" ∨
         (∃ c, i.sentimentConfidence = some c ∧ c < 7/10) ∨
         i.intent = some "complaint" ∨
         i.urgency = some "urgent" ∨ i.urgency = some "high")) ∧
    canAutoReply { baseInteraction with
      sentiment := some "positive", sentimentConfidence := some (70/100) } = true ∧
    canAutoReply { baseInteraction with
      sentiment := some "positive", sentimentConfidence := some (69/100) } = false ∧
    (∀ c : Option Rat, canAutoReply { baseInteraction with
      sentiment := some "negative", sentimentConfidence := c } = false) ∧
    canAutoReply { baseInteraction with
      sentiment := some "positive", sentimentConfidence := some 1,
      intent := some "complaint" } = false := by
  refine ⟨?_, by norm_num [canAutoReply, baseInteraction]; simp,
    by norm_num [canAutoReply, baseInteraction], ?_,
    by norm_num [canAutoReply, baseInteraction]⟩
  · intro i
    rcases hc : i.sentimentConfidence with _ | c
    · simp only [canAutoReply, hc]
      split_ifs with h1 hF h3 h4
      · exact iff_of_true rfl (Or.inl h1)
      · exact absurd hF (by simp)
      · exact iff_of_true rfl (Or.inr (Or.inr (Or.inl h3)))
      · exact iff_of_true rfl (Or.inr (Or.inr (Or.inr h4)))
      · refine iff_of_false (by simp) ?_
        rintro (h | ⟨d, hd, _⟩ | h | h | h)
        · exact h1 h
        · cases hd
        · exact h3 h
        · exact h4 (Or.inl h)
        · exact h4 (Or.inr h)
    · simp only [canAutoReply, hc]
      split_ifs with h1 h2 h3 h4
      · exact iff_of_true rfl (Or.inl h1)
      · exact iff_of_true rfl (Or.inr (Or.inl ⟨c, rfl, of_decide_eq_true h2⟩))
      · exact iff_of_true rfl (Or.inr (Or.inr (Or.inl h3)))
      · exact iff_of_true rfl (Or.inr (Or.inr (Or.inr h4)))
      · refine iff_of_false (by simp) ?_
        rintro (h | ⟨d, hd, hlt⟩ | h | h | h)
        · exact h1 h
        · cases hd
          exact h2 (decide_eq_true hlt)
        · exact h3 h
        · exact h4 (Or.inl h)
        · exact h4 (Or.inr h)
  · intro c
    cases c <;> norm_num [canAutoReply, baseInteraction]

/-- C10: an interaction carrying no sentiment, no confidence, no intent and
no urgency passes the eligibility gate: the JS comparison
`undefined < 0.7` is `false`, so an entirely unenriched interaction is
judged auto-reply eligible. -/
theorem canAutoReply_unenriched (i : Interaction)
    (hs : i.sentiment = none) (hc : i.sentimentConfidence = none)
    (hi : i.intent = none) (hu : i.urgency = none) :
    canAutoReply i = true := by
  unfold canAutoReply
  rw [hs, hc, hi, hu]
  simp

/-- Witness for C10: the blank interaction evaluates to eligible. -/
theorem canAutoReply_unenriched_witness :
    canAutoReply baseInteraction = true :=
  canAutoReply_unenriched baseInteraction rfl rfl rfl rfl

end RepMeUp

namespace RepMeUp

/-- Decoded Pub/Sub payload of a Google Business Profile webhook
(`eventType`, `locationId`, `reviewId`), from
`webhookController.handleGoogleWebhook`. -/
structure GoogleEvent where
  eventType : String
  locationId : String
  reviewId : String
  deriving Repr, DecidableEq

/-- Decoded Pub/Sub payload of a YouTube webhook
(`eventType`, `videoId`, `commentId`). -/
structure YouTubeEvent where
  eventType : String
  videoId : String
  commentId : String
  deriving Repr, DecidableEq

/-- `webhookController.handleGoogleWebhook`, as a function from the request
and the outcomes of its external calls to the HTTP status it answers.
`message` is the Pub/Sub envelope of the body (`none` when the body has no
`message` field, `some (.error e)` when base64/JSON decoding throws,
`some (.ok ev)` when it decodes); `connection` is the
`PlatformConnection.findOne` result; `fetch` is the outcome of
`googleService.fetchReviews` plus the `processWebhook` hand-off.  A decoding
throw lands in the outer `catch`, which still answers 200; a processing
throw is swallowed by the inner `catch`; only a body without `message` is
answered 400. -/
def handleGoogleWebhook (message : Option (Except String GoogleEvent))
    (connection : Option String) (fetch : Except String Unit) : Nat :=
  match message with
  | none => 400
  | some (.error _) => 200
  | some (.ok ev) =>
    match connection with
    | none => 200
    | some _ =>
      if ev.eventType = "NEW_REVIEW" ∨ ev.eventType = "UPDATE_REVIEW" then
        match fetch with
        | .ok _ => 200
        | .error _ => 200
      else 200

/-- `webhookController.handleYouTubeWebhook`, same shape as the Google
handler: 400 only when the body has no `message`; 200 in every other case,
whatever the decode / connection-lookup / processing outcome. -/
def handleYouTubeWebhook (message : Option (Except String YouTubeEvent))
    (connection : Option String) (fetch : Except String Unit) : Nat :=
  match message with
  | none => 400
  | some (.error _) => 200
  | some (.ok ev) =>
    match connection with
    | none => 200
    | some _ =>
      if ev.eventType = "NEW_COMMENT" ∨ ev.eventType = "UPDATE_COMMENT" then
        match fetch with
        | .ok _ => 200
        | .error _ => 200
      else 200

/-- Counterexample to C6 as stated: a webhook delivery whose body carries no
Pub/Sub `message` field is answered 400, not a 2xx acknowledgment, by both
webhook endpoints. -/
theorem webhook_ack_counterexample :
    handleGoogleWebhook none none (.ok ()) = 400 ∧
    handleYouTubeWebhook none none (.ok ()) = 400 ∧
    ¬ (200 ≤ handleGoogleWebhook none none (.ok ()) ∧
       handleGoogleWebhook none none (.ok ()) < 300) := by
  refine ⟨rfl, rfl, ?_⟩
  intro h
  simp [handleGoogleWebhook] at h

/-- C6 (amended): every webhook delivery whose body carries a Pub/Sub
`message` field is acknowledged with HTTP 200, for every decoding outcome,
connection-lookup outcome and processing outcome — internal failures are
logged but never withhold the acknowledgment; only a body without `message`
is rejected (with 400). -/
theorem webhook_ack_with_message (m : Except String GoogleEvent)
    (m' : Except String YouTubeEvent) (conn conn' : Option String)
    (fetch fetch' : Except String Unit) :
    handleGoogleWebhook (some m) conn fetch = 200 ∧
    handleYouTubeWebhook (some m') conn' fetch' = 200 := by
  constructor
  · rcases m with _ | ev
    · rfl
    · rcases conn with _ | c
      · rfl
      · simp only [handleGoogleWebhook]
        split_ifs <;> rcases fetch with _ | u <;> rfl
  · rcases m' with _ | ev
    · rfl
    · rcases conn' with _ | c
      · rfl
      · simp only [handleYouTubeWebhook]
        split_ifs <;> rcases fetch' with _ | u <;> rfl

end RepMeUp

namespace RepMeUp

/-- Replace the first element of the list satisfying `p` by its image under
`f` (Mongo `findOneAndUpdate` touches only the first matching document). -/
def updateFirst (p : Interaction → Bool) (f : Interaction → Interaction) :
    List Interaction → List Interaction
  | [] => []
  | r :: rs => if p r then f r :: rs else r :: updateFirst p f rs

theorem updateFirst_length (p : Interaction → Bool)
    (f : Interaction → Interaction) (l : List Interaction) :
    (updateFirst p f l).length = l.length := by
  induction l with
  | nil => rfl
  | cons r rs ih =>
    simp only [updateFirst]
    split_ifs <;> simp [ih]

theorem updateFirst_append_of_find?_none (p : Interaction → Bool)
    (f : Interaction → Interaction) (l₁ l₂ : List Interaction)
    (h : l₁.find? p = none) :
    updateFirst p f (l₁ ++ l₂) = l₁ ++ updateFirst p f l₂ := by
  induction l₁ with
  | nil => rfl
  | cons r rs ih =>
    rw [List.find?_cons] at h
    rcases hpr : p r with _ | _
    · rw [hpr] at h
      simp only [List.cons_append, updateFirst, hpr]
      simp [ih h]
    · rw [hpr] at h; cases h

theorem find?_updateFirst (p : Interaction → Bool)
    (f : Interaction → Interaction) (l : List Interaction)
    (hpres : ∀ r, p r = true → p (f r) = true) :
    (updateFirst p f l).find? p = (l.find? p).map f := by
  induction l with
  | nil => rfl
  | cons r rs ih =>
    rcases hpr : p r with _ | _
    · simp [updateFirst, hpr, List.find?_cons, ih]
    · simp [updateFirst, hpr, List.find?_cons, hpres r hpr]

theorem updateFirst_updateFirst (p : Interaction → Bool)
    (f : Interaction → Interaction) (l : List Interaction)
    (hpres : ∀ r, p r = true → p (f r) = true)
    (hid : ∀ r, f (f r) = f r) :
    updateFirst p f (updateFirst p f l) = updateFirst p f l := by
  induction l with
  | nil => rfl
  | cons r rs ih =>
    rcases hpr : p r with _ | _
    · simp [updateFirst, hpr, ih]
    · simp [updateFirst, hpr, hpres r hpr, hid r]

theorem updateFirst_filter_not (p : Interaction → Bool)
    (f : Interaction → Interaction) (l : List Interaction)
    (hpres : ∀ r, p r = true → p (f r) = true) :
    (updateFirst p f l).filter (fun r => !(p r)) =
      l.filter (fun r => !(p r)) := by
  induction l with
  | nil => rfl
  | cons r rs ih =>
    rcases hpr : p r with _ | _
    · simp [updateFirst, hpr, List.filter_cons, ih]
    · simp [updateFirst, hpr, List.filter_cons, hpres r hpr]

end RepMeUp

namespace RepMeUp

/-- An Instagram comment from a webhook `changes` entry
(`change.value` when `change.field === 'comments'`). -/
structure IgComment where
  id : String
  text : String
  fromId : Option String := none
  fromUsername : Option String := none
  mediaId : Option String := none
  timestamp : Int := 0
  deriving Repr, DecidableEq

/-- The update document of the Instagram comment upsert in
`handleInstagramWebhook` (src/jobs/processWebhook.js): Mongo `$set`
semantics write these fields and keep every other field of the matched
document. -/
def igCommentSet (organizationId : String) (c : IgComment)
    (r : Interaction) : Interaction :=
  { r with
    organization := organizationId
    platform := "instagram"
    type := "comment"
    platformId := c.id
    content := c.text
    authorPlatformId := c.fromId
    authorUsername := c.fromUsername
    authorName := c.fromUsername
    postId := c.mediaId
    platformCreatedAt := c.timestamp
    status := "unread" }

/-- The fresh document created when the upsert misses: the update document
applied to a default document carrying the generated `_id` and `createdAt`
(Mongoose timestamps). -/
def igCommentNew (organizationId : String) (c : IgComment)
    (freshId : String) (now : Int) : Interaction :=
  igCommentSet organizationId c
    { id := freshId, organization := "", platform := "", type := ""
      platformId := "", content := "", createdAt := now }

/-- `Interaction.findOneAndUpdate({ platformId: comment.id }, …,
{ upsert: true, new: true })` from `handleInstagramWebhook`, over the
explicit collection.  The query matches on `platformId` ONLY: a hit updates
the first matching document in place, a miss appends a fresh one.  Returns
the new collection and the post-update document. -/
def igUpsert (db : List Interaction) (organizationId : String)
    (c : IgComment) (freshId : String) (now : Int) :
    List Interaction × Interaction :=
  match db.find? (fun r => r.platformId = c.id) with
  | some r =>
    (updateFirst (fun r => r.platformId = c.id) (igCommentSet organizationId c) db,
     igCommentSet organizationId c r)
  | none =>
    (db ++ [igCommentNew organizationId c freshId now],
     igCommentNew organizationId c freshId now)

theorem igCommentSet_platformId (org : String) (c : IgComment)
    (r : Interaction) : (igCommentSet org c r).platformId = c.id := rfl

theorem igCommentSet_idem (org : String) (c : IgComment) (r : Interaction) :
    igCommentSet org c (igCommentSet org c r) = igCommentSet org c r := rfl

/-- A concrete comment used in the dedup counterexample. -/
def igc1 : IgComment := { id := "c1", text := "hello" }

end RepMeUp

namespace RepMeUp

theorem igCommentSet_pres (org : String) (c : IgComment) :
    ∀ r : Interaction, decide (r.platformId = c.id) = true →
      decide ((igCommentSet org c r).platformId = c.id) = true := by
  intro r _
  simp [igCommentSet]

/-- Counterexample to C2 as stated: two drafts that differ only in
`organizationId` ("orgA" vs "orgB") but share `platformId` "c1" DO match
each other's records — after delivering the first and then the second, a
single record remains, it belongs to "orgB", and no record of "orgA"
survives: the upsert query is `{ platformId }` alone, not the triple. -/
theorem dedup_triple_counterexample :
    ((igUpsert (igUpsert [] "orgA" igc1 "f1" 0).1 "orgB" igc1 "f2" 1).1.length
        = 1) ∧
    ((igUpsert (igUpsert [] "orgA" igc1 "f1" 0).1 "orgB" igc1 "f2" 1).1.countP
        (fun r => r.organization = "orgA") = 0) ∧
    ((igUpsert (igUpsert [] "orgA" igc1 "f1" 0).1 "orgB" igc1 "f2" 1).2.organization
        = "orgB") := by
  exact ⟨rfl, by decide, rfl⟩

/-- C2 (amended): the webhook upsert is keyed by `platformId` alone.
Delivering an identical draft twice is idempotent — the second delivery
changes nothing and returns the already-persisted record; records whose
`platformId` differs from the draft's are never touched; but a second draft
with the same `platformId` and a different `organizationId` matches the
first draft's record, creates nothing, and overwrites its organization. -/
theorem igUpsert_keying :
    (∀ (db : List Interaction) (org : String) (c : IgComment)
        (f : String) (n : Int) (f' : String) (n' : Int),
      (igUpsert (igUpsert db org c f n).1 org c f' n').1
          = (igUpsert db org c f n).1 ∧
      (igUpsert (igUpsert db org c f n).1 org c f' n').2
          = (igUpsert db org c f n).2) ∧
    (∀ (db : List Interaction) (org : String) (c : IgComment)
        (f : String) (n : Int),
      (igUpsert db org c f n).1.filter
          (fun r => ! decide (r.platformId = c.id))
        = db.filter (fun r => ! decide (r.platformId = c.id))) ∧
    (∀ (db : List Interaction) (org org' : String) (c c' : IgComment)
        (f : String) (n : Int) (f' : String) (n' : Int),
      c'.id = c.id →
      (igUpsert (igUpsert db org c f n).1 org' c' f' n').1.length
          = (igUpsert db org c f n).1.length ∧
      (igUpsert (igUpsert db org c f n).1 org' c' f' n').2.organization
          = org') := by
  refine ⟨?_, ?_, ?_⟩
  · intro db org c f n f' n'
    rcases h : db.find? (fun r => decide (r.platformId = c.id)) with _ | r
    · have hnew : decide ((igCommentNew org c f n).platformId = c.id) = true := by
        simp [igCommentNew, igCommentSet]
      have hfind :
          ((db ++ [igCommentNew org c f n]).find?
            (fun r => decide (r.platformId = c.id)))
            = some (igCommentNew org c f n) := by
        rw [List.find?_append, h]
        simp [List.find?_cons, hnew]
      simp only [igUpsert, h, hfind]
      rw [updateFirst_append_of_find?_none _ _ _ _ h]
      constructor
      · simp [updateFirst, hnew, igCommentNew, igCommentSet_idem]
      · simp [igCommentNew, igCommentSet_idem]
    · have hfind :
          ((updateFirst (fun r => decide (r.platformId = c.id))
              (igCommentSet org c) db).find?
            (fun r => decide (r.platformId = c.id)))
            = some (igCommentSet org c r) := by
        rw [find?_updateFirst _ _ _ (igCommentSet_pres org c), h]
        rfl
      simp only [igUpsert, h, hfind]
      rw [updateFirst_updateFirst _ _ _ (igCommentSet_pres org c)
        (igCommentSet_idem org c)]
      exact ⟨rfl, igCommentSet_idem org c r⟩
  · intro db org c f n
    rcases h : db.find? (fun r => decide (r.platformId = c.id)) with _ | r
    · have hnew : decide ((igCommentNew org c f n).platformId = c.id) = true := by
        simp [igCommentNew, igCommentSet]
      simp [igUpsert, h, List.filter_append, hnew]
    · simp only [igUpsert, h]
      exact updateFirst_filter_not _ _ _ (igCommentSet_pres org c)
  · intro db org org' c c' f n f' n' hcc
    rcases h : db.find? (fun r => decide (r.platformId = c.id)) with _ | r
    · have hnew : decide ((igCommentNew org c f n).platformId = c.id) = true := by
        simp [igCommentNew, igCommentSet]
      have hfind :
          ((db ++ [igCommentNew org c f n]).find?
            (fun r => decide (r.platformId = c'.id)))
            = some (igCommentNew org c f n) := by
        rw [List.find?_append]
        rw [show (fun r : Interaction => decide (r.platformId = c'.id))
            = (fun r => decide (r.platformId = c.id)) by rw [hcc], h]
        simp [List.find?_cons, hnew]
      simp only [igUpsert, h, hfind]
      constructor
      · exact updateFirst_length _ _ _
      · rfl
    · have hfind :
          ((updateFirst (fun r => decide (r.platformId = c.id))
              (igCommentSet org c) db).find?
            (fun r => decide (r.platformId = c'.id)))
            = some (igCommentSet org c r) := by
        rw [show (fun r : Interaction => decide (r.platformId = c'.id))
            = (fun r => decide (r.platformId = c.id)) by rw [hcc]]
        rw [find?_updateFirst _ _ _ (igCommentSet_pres org c), h]
        rfl
      simp only [igUpsert, h, hfind]
      constructor
      · exact updateFirst_length _ _ _
      · rfl

/-- Witness for the amended C2: the keying theorem applied at concrete
drafts — a repeat delivery of `igc1` for "orgA" leaves the collection
unchanged, and a same-`platformId` draft for "orgB" matches it. -/
theorem igUpsert_keying_witness :
    (igUpsert (igUpsert [] "orgA" igc1 "f1" 0).1 "orgB" igc1 "f2" 1).1.length
        = (igUpsert [] "orgA" igc1 "f1" 0).1.length ∧
    (igUpsert (igUpsert [] "orgA" igc1 "f1" 0).1 "orgB" igc1 "f2" 1).2.organization
        = "orgB" :=
  igUpsert_keying.2.2 [] "orgA" "orgB" igc1 igc1 "f1" 0 "f2" 1 rfl

end RepMeUp

namespace RepMeUp

/-- Outcome of one OpenAI chat-completion call: `none` when the request
throws (timeout, network, API error), `some text` the returned message
content. -/
abbrev AICall := Option String

/-- JS `String.prototype.toLowerCase` on the ASCII range, working on the
character list so that proofs can evaluate it. -/
def jsToLower (s : String) : String := ⟨s.data.map Char.toLower⟩

/-- JS `String.prototype.trim`: strip leading and trailing whitespace. -/
def jsTrim (s : String) : String :=
  ⟨((s.data.dropWhile Char.isWhitespace).reverse.dropWhile
      Char.isWhitespace).reverse⟩

/-- Is `pat` a prefix of the second list? -/
def listStartsWith : List Char → List Char → Bool
  | [], _ => true
  | _ :: _, [] => false
  | p :: ps, c :: cs => p = c && listStartsWith ps cs

/-- Does `pat` occur in the list? -/
def listIncludes (pat : List Char) : List Char → Bool
  | [] => pat.isEmpty
  | c :: cs => listStartsWith pat (c :: cs) || listIncludes pat cs

/-- JS `String.prototype.includes`: does `pat` occur in `s`? -/
def includes (s pat : String) : Bool := listIncludes pat.data s.data

/-- JS `String.prototype.split(',')`. -/
def splitOnComma : List Char → List (List Char)
  | [] => [[]]
  | c :: cs =>
    if c = ',' then [] :: splitOnComma cs
    else match splitOnComma cs with
      | h :: t => (c :: h) :: t
      | [] => [[c]]

/-- The object returned by `aiService.analyzeSentiment`. -/
structure SentimentResult where
  sentiment : String
  sentimentScore : Rat
  sentimentConfidence : Rat
  deriving Repr, DecidableEq

/-- `aiService.analyzeSentiment`: lowercases and trims the model response,
keyword-matches `positive` before `negative`, maps the label to the fixed
score 0.8 / -0.8 / 0 with confidence 0.85; the `catch` branch returns the
safe default (neutral, score 0, confidence 0.5). -/
def analyzeSentiment (call : AICall) : SentimentResult :=
  match call with
  | none => { sentiment := "neutral", sentimentScore := 0,
              sentimentConfidence := 1/2 }
  | some resp =>
    let result := jsTrim (jsToLower resp)
    let sentiment :=
      if includes result "positive" then "positive"
      else if includes result "negative" then "negative"
      else "neutral"
    let sentimentScore : Rat :=
      if sentiment = "positive" then 4/5
      else if sentiment = "negative" then -(4/5) else 0
    { sentiment := sentiment, sentimentScore := sentimentScore,
      sentimentConfidence := 85/100 }

/-- `aiService.detectIntent`: the trimmed lowercased response must be one of
the five valid intents, else (and on any thrown error) `"other"`. -/
def detectIntent (call : AICall) : String :=
  match call with
  | none => "other"
  | some resp =>
    let intent := jsTrim (jsToLower resp)
    if intent ∈ ["inquiry", "complaint", "praise", "feedback", "support"]
    then intent else "other"

/-- `aiService.extractTopics`: split the response on commas, trim each
piece, drop empties; the `catch` branch returns `[]`. -/
def extractTopics (call : AICall) : List String :=
  match call with
  | none => []
  | some resp =>
    (((splitOnComma (jsTrim resp).data).map
        (fun l => jsTrim (⟨l⟩ : String))).filter (fun t => decide (t ≠ "")))

/-- `aiService.generateResponse`: wraps the trimmed response with the fixed
confidence 0.8; the `catch` branch returns `null` (the knowledge-base
context only shapes the prompt, so it is folded into the call outcome). -/
def generateResponse (call : AICall) : Option AiSuggestion :=
  match call with
  | none => none
  | some resp => some { content := jsTrim resp, confidence := 4/5 }

end RepMeUp

namespace RepMeUp

/-- `Interaction.countDocuments({ assignedTo: agent, status: { $in:
['assigned','unread'] } })` — an agent's open workload.  (The source query
has no organization filter; `assignedTo` already pins the agent.) -/
def workloadCount (db : List Interaction) (agent : String) : Nat :=
  db.countP (fun r =>
    r.assignedTo = some agent ∧ (r.status = "assigned" ∨ r.status = "unread"))

/-- Insert into a count-sorted list, after every element of smaller or
equal count coming from earlier in the original list.  `insertSorted` and
`sortByCount` together model `agentWorkload.sort((a, b) => a.count -
b.count)`: ECMAScript `Array.prototype.sort` is stable, and a stable sort
by the count key is a unique function, so any stable sorting algorithm is a
faithful model of the one V8 runs. -/
def insertSorted (x : String × Nat) : List (String × Nat) → List (String × Nat)
  | [] => [x]
  | y :: ys => if x.2 ≤ y.2 then x :: y :: ys else y :: insertSorted x ys

/-- Stable sort by ascending count (see `insertSorted`). -/
def sortByCount : List (String × Nat) → List (String × Nat)
  | [] => []
  | x :: xs => insertSorted x (sortByCount xs)

/-- Modelled from the spec: the `Interaction.assignTo(userId, …, reason)`
document method — the Interaction model file is not among the sources; per
the spec's data model and design notes it is a workflow-field mutator that
records the assignee and moves the interaction into `assigned` status. -/
def Interaction.assignTo (i : Interaction) (agent : String) : Interaction :=
  { i with assignedTo := some agent, status := "assigned" }

/-- `assignToAgent` (src/jobs/processAI.js): `agents` is the result of the
`User.find({ organization, role: 'agent', isActive: true })` query; an empty
result logs and leaves the interaction untouched; otherwise the per-agent
workloads are counted, sorted ascending (stable), the first element is
taken, the interaction is assigned to it and one notification email is
sent.  Returns the updated interaction and the number of emails sent. -/
def assignToAgent (db : List Interaction) (agents : List String)
    (i : Interaction) : Interaction × Nat :=
  if agents.isEmpty then (i, 0)
  else
    let agentWorkload := agents.map (fun a => (a, workloadCount db a))
    match (sortByCount agentWorkload).head? with
    | some sel => (i.assignTo sel.1, 1)
    | none => (i, 0)

/-- 24 hours in milliseconds, the spike window of `checkNegativeSpike`. -/
def spikeWindowMs : Int := 24 * 60 * 60 * 1000

/-- `Interaction.countDocuments({ organization, 'metadata.postId': postId,
sentiment: 'negative', createdAt: { $gte: Date.now() - 24h } })` — counts
the PERSISTED negative interactions on the post inside the trailing
window. -/
def negativeCountOnPost (db : List Interaction) (now : Int)
    (orgId postId : String) : Nat :=
  db.countP (fun r =>
    r.organization = orgId ∧ r.postId = some postId ∧
    r.sentiment = some "negative" ∧ now - spikeWindowMs ≤ r.createdAt)

/-- `checkNegativeSpike` (src/jobs/processAI.js): no `metadata.postId`
means an early return; otherwise when the persisted negative count reaches
3 the single `User.findOne` manager/admin (`manager`) is alerted once and
the in-memory interaction is marked urgent.  Returns the updated
interaction and the number of alert emails sent. -/
def checkNegativeSpike (db : List Interaction) (now : Int)
    (manager : Option String) (i : Interaction) : Interaction × Nat :=
  match i.postId with
  | none => (i, 0)
  | some pid =>
    let negativeCount := negativeCountOnPost db now i.organization pid
    if 3 ≤ negativeCount then
      let alerts := match manager with | some _ => 1 | none => 0
      ({ i with priority := some "urgent", urgency := some "urgent" }, alerts)
    else (i, 0)

/-- `interaction.save()`: write the in-memory document back over the
persisted one with the same `_id`. -/
def saveInteraction (db : List Interaction) (i : Interaction) :
    List Interaction :=
  updateFirst (fun r => r.id = i.id) (fun _ => i) db

/-- The four OpenAI calls one `processAI` run makes. -/
structure AICalls where
  sentimentCall : AICall
  intentCall : AICall
  topicsCall : AICall
  draftCall : AICall
  deriving Repr, DecidableEq

/-- What one `processAI` run produces: the saved collection, the final
in-memory interaction, the trace of executed stages, and the notification
side effects. -/
structure ProcessAIResult where
  db : List Interaction
  interaction : Interaction
  steps : List String
  assignmentEmails : Nat
  spikeAlerts : Nat
  deriving Repr, DecidableEq

/-- Steps 1-6 of `processAI` (src/jobs/processAI.js): write the sentiment
triple, the intent and the topics unconditionally (stage failures already
became safe defaults inside the service); write the draft only when
`generateResponse` returned one; then record auto-reply eligibility. -/
def enrichInteraction (calls : AICalls) (i0 : Interaction) : Interaction :=
  let s := analyzeSentiment calls.sentimentCall
  let i1 := { i0 with
    sentiment := some s.sentiment
    sentimentScore := some s.sentimentScore
    sentimentConfidence := some s.sentimentConfidence }
  let i2 := { i1 with intent := some (detectIntent calls.intentCall) }
  let i3 := { i2 with topics := some (extractTopics calls.topicsCall) }
  let i4 := match generateResponse calls.draftCall with
    | some r => { i3 with aiSuggestion := some r }
    | none => i3
  { i4 with autoReplyEligible := some (canAutoReply i4) }

/-- Step 7 of `processAI`: `if (interaction.autoReplyEligible && aiResponse)`
only logs eligibility (the send path is unimplemented); otherwise
`assignToAgent` runs.  Returns the interaction, the emails sent, and a
label for the branch taken. -/
def routeInteraction (db : List Interaction) (agents : List String)
    (hasDraft : Bool) (i5 : Interaction) : Interaction × Nat × String :=
  if i5.autoReplyEligible = some true && hasDraft then
    (i5, 0, "routing:auto-eligible")
  else
    let a := assignToAgent db agents i5
    (a.1, a.2, "routing:assign")

/-- Step 8 of `processAI`: the spike check runs only for negative
comments. -/
def spikeStep (db : List Interaction) (now : Int) (manager : Option String)
    (i6 : Interaction) : Interaction × Nat :=
  if i6.type = "comment" ∧ i6.sentiment = some "negative" then
    checkNegativeSpike db now manager i6
  else (i6, 0)

/-- `processAI` (src/jobs/processAI.js) as a function of the persisted
collection and the outcomes of its external calls.  `agents` is the agent
query result used by `assignToAgent`; `manager` the manager/admin
`findOne` result used by `checkNegativeSpike`.  The interaction is loaded
by `_id` (a miss throws, modelled as `none`); then enrichment, routing and
the spike check run in order, and the final `save` happens LAST — the spike
check still sees the collection without the current interaction's new
sentiment. -/
def processAI (db : List Interaction) (interactionId : String)
    (calls : AICalls) (agents : List String) (manager : Option String)
    (now : Int) : Option ProcessAIResult :=
  match db.find? (fun r => r.id = interactionId) with
  | none => none
  | some i0 =>
    let i5 := enrichInteraction calls i0
    let routed :=
      routeInteraction db agents (generateResponse calls.draftCall).isSome i5
    let spiked := spikeStep db now manager routed.1
    some { db := saveInteraction db spiked.1
           interaction := spiked.1
           steps := ["sentiment", "intent", "topics", "knowledge-base",
                     "draft", "eligibility", routed.2.2, "spike-check", "save"]
           assignmentEmails := routed.2.1
           spikeAlerts := spiked.2 }

end RepMeUp

namespace RepMeUp

theorem enrichInteraction_fields (calls : AICalls) (i0 : Interaction) :
    (enrichInteraction calls i0).sentiment
        = some (analyzeSentiment calls.sentimentCall).sentiment ∧
    (enrichInteraction calls i0).sentimentScore
        = some (analyzeSentiment calls.sentimentCall).sentimentScore ∧
    (enrichInteraction calls i0).sentimentConfidence
        = some (analyzeSentiment calls.sentimentCall).sentimentConfidence ∧
    (enrichInteraction calls i0).intent
        = some (detectIntent calls.intentCall) ∧
    (enrichInteraction calls i0).topics
        = some (extractTopics calls.topicsCall) ∧
    (enrichInteraction calls i0).type = i0.type ∧
    (enrichInteraction calls i0).organization = i0.organization ∧
    (enrichInteraction calls i0).postId = i0.postId ∧
    (enrichInteraction calls i0).urgency = i0.urgency ∧
    (enrichInteraction calls i0).id = i0.id ∧
    (generateResponse calls.draftCall = none →
      (enrichInteraction calls i0).aiSuggestion = i0.aiSuggestion) := by
  unfold enrichInteraction
  rcases h : generateResponse calls.draftCall with _ | r <;> simp [h]

theorem assignToAgent_result (db : List Interaction) (agents : List String)
    (i : Interaction) :
    (assignToAgent db agents i).1 = i ∨
    ∃ a, (assignToAgent db agents i).1 = i.assignTo a := by
  unfold assignToAgent
  split_ifs with h
  · exact Or.inl rfl
  · rcases hh : (sortByCount (agents.map fun a => (a, workloadCount db a))).head?
        with _ | sel <;> simp only [hh]
    · exact Or.inl trivial
    · exact Or.inr ⟨sel.1, rfl⟩

theorem routeInteraction_result (db : List Interaction)
    (agents : List String) (hasDraft : Bool) (i : Interaction) :
    ((routeInteraction db agents hasDraft i).1 = i ∨
      ∃ a, (routeInteraction db agents hasDraft i).1 = i.assignTo a) ∧
    ((routeInteraction db agents hasDraft i).2.2 = "routing:auto-eligible" ∨
      (routeInteraction db agents hasDraft i).2.2 = "routing:assign") := by
  unfold routeInteraction
  split_ifs with h
  · exact ⟨Or.inl rfl, Or.inl rfl⟩
  · exact ⟨assignToAgent_result db agents i, Or.inr rfl⟩

theorem checkNegativeSpike_result (db : List Interaction) (now : Int)
    (manager : Option String) (i : Interaction) :
    (checkNegativeSpike db now manager i).1 = i ∨
    (checkNegativeSpike db now manager i).1
      = { i with priority := some "urgent", urgency := some "urgent" } := by
  unfold checkNegativeSpike
  rcases hp : i.postId with _ | pid
  · simp only [hp]
    exact Or.inl trivial
  · simp only [hp]
    split_ifs with h
    · exact Or.inr rfl
    · exact Or.inl rfl

theorem spikeStep_result (db : List Interaction) (now : Int)
    (manager : Option String) (i : Interaction) :
    (spikeStep db now manager i).1 = i ∨
    (spikeStep db now manager i).1
      = { i with priority := some "urgent", urgency := some "urgent" } := by
  unfold spikeStep
  split_ifs with h
  · exact checkNegativeSpike_result db now manager i
  · exact Or.inl rfl

end RepMeUp

namespace RepMeUp

/-- C3: the enrichment pipeline is resilient to single-stage AI failures.
For every combination of stage outcomes the run completes, with sentiment,
intent and topics always populated (from the stage result, which on a
stage failure is the safe default: neutral sentiment with score 0, intent
"other", empty topics, no draft — the last four conjuncts pin those
defaults), and the routing step is reached (one routing branch appears in
the executed-step trace); after a response-draft failure the interaction's
draft is simply left as it was. -/
theorem processAI_resilient (db : List Interaction) (interactionId : String)
    (calls : AICalls) (agents : List String) (manager : Option String)
    (now : Int) (i0 : Interaction)
    (hfind : db.find? (fun r => decide (r.id = interactionId)) = some i0) :
    ∃ res, processAI db interactionId calls agents manager now = some res ∧
      res.interaction.sentiment
          = some (analyzeSentiment calls.sentimentCall).sentiment ∧
      res.interaction.sentimentScore
          = some (analyzeSentiment calls.sentimentCall).sentimentScore ∧
      res.interaction.intent = some (detectIntent calls.intentCall) ∧
      res.interaction.topics = some (extractTopics calls.topicsCall) ∧
      ("routing:auto-eligible" ∈ res.steps ∨ "routing:assign" ∈ res.steps) ∧
      analyzeSentiment none
          = { sentiment := "neutral", sentimentScore := 0,
              sentimentConfidence := 1/2 } ∧
      detectIntent none = "other" ∧
      extractTopics none = [] ∧
      generateResponse none = none ∧
      (calls.draftCall = none →
        res.interaction.aiSuggestion = i0.aiSuggestion) := by
  obtain ⟨he1, he2, he3, he4, he5, he6, he7, he8, he9, he10, he11⟩ :=
    enrichInteraction_fields calls i0
  obtain ⟨hrr, hlabel⟩ := routeInteraction_result db agents
    (generateResponse calls.draftCall).isSome (enrichInteraction calls i0)
  obtain hss := spikeStep_result db now manager
    (routeInteraction db agents (generateResponse calls.draftCall).isSome
      (enrichInteraction calls i0)).1
  simp only [processAI, hfind]
  refine ⟨_, rfl, ?_, ?_, ?_, ?_, ?_, rfl, rfl, rfl, rfl, ?_⟩
  · rcases hss with h | h <;> rcases hrr with h2 | ⟨a, h2⟩ <;>
      rw [h] <;> simp [h2, Interaction.assignTo, he1]
  · rcases hss with h | h <;> rcases hrr with h2 | ⟨a, h2⟩ <;>
      rw [h] <;> simp [h2, Interaction.assignTo, he2]
  · rcases hss with h | h <;> rcases hrr with h2 | ⟨a, h2⟩ <;>
      rw [h] <;> simp [h2, Interaction.assignTo, he4]
  · rcases hss with h | h <;> rcases hrr with h2 | ⟨a, h2⟩ <;>
      rw [h] <;> simp [h2, Interaction.assignTo, he5]
  · rcases hlabel with h | h
    · left; simp [h]
    · right; simp [h]
  · intro hdc
    have hgen : generateResponse calls.draftCall = none := by rw [hdc]; rfl
    rcases hss with h | h <;> rcases hrr with h2 | ⟨a, h2⟩ <;>
      rw [h] <;> simp [h2, Interaction.assignTo, he11 hgen]

/-- Witness for C3: a collection holding one fresh comment, every AI call
failing; the pipeline still completes with the safe defaults and reaches
routing. -/
theorem processAI_resilient_witness :
    ∃ res,
      processAI [{ baseInteraction with id := "i1" }] "i1"
          ⟨none, none, none, none⟩ [] none 0 = some res ∧
      res.interaction.sentiment = some (analyzeSentiment none).sentiment ∧
      res.interaction.sentimentScore
          = some (analyzeSentiment none).sentimentScore ∧
      res.interaction.intent = some (detectIntent none) ∧
      res.interaction.topics = some (extractTopics none) ∧
      ("routing:auto-eligible" ∈ res.steps ∨ "routing:assign" ∈ res.steps) ∧
      analyzeSentiment none
          = { sentiment := "neutral", sentimentScore := 0,
              sentimentConfidence := 1/2 } ∧
      detectIntent none = "other" ∧
      extractTopics none = [] ∧
      generateResponse none = none ∧
      ((none : AICall) = none →
        res.interaction.aiSuggestion
          = ({ baseInteraction with id := "i1" } : Interaction).aiSuggestion) :=
  processAI_resilient [{ baseInteraction with id := "i1" }] "i1"
    ⟨none, none, none, none⟩ [] none 0 { baseInteraction with id := "i1" }
    (by simp [baseInteraction, List.find?_cons])

end RepMeUp

namespace RepMeUp

/-- A persisted negative comment on post "p" of organization "o". -/
def negRec (rid : String) (t : Int) : Interaction :=
  { baseInteraction with
    id := rid, organization := "o", type := "comment"
    platformId := "pc" ++ rid, content := "bad"
    postId := some "p", sentiment := some "negative", createdAt := t }

/-- A freshly ingested (not yet enriched) comment on the same post. -/
def freshRec (rid : String) (t : Int) : Interaction :=
  { baseInteraction with
    id := rid, organization := "o", type := "comment"
    platformId := "pc" ++ rid, content := "terrible"
    postId := some "p", createdAt := t }

/-- Collection while the 3rd negative comment is being processed: two
fully processed negative comments plus the current one, whose sentiment is
not persisted yet. -/
def spikeDb3 : List Interaction := [negRec "a1" 0, negRec "a2" 1000, freshRec "a3" 2000]

/-- AI outcomes that classify the current comment as negative. -/
def spikeCalls : AICalls := ⟨some "negative", none, none, none⟩

/-- Counterexample to C4 as stated: the 3rd negative comment on post "p"
within 24 hours is being processed (after the save its own negative
sentiment makes the trailing count 3), a manager exists — yet NO alert is
sent and NO urgency is set, because `checkNegativeSpike` counts persisted
documents and runs before the current comment's sentiment is saved, so it
sees only 2. -/
theorem negative_spike_counterexample :
    ∃ res, processAI spikeDb3 "a3" spikeCalls [] (some "mgr") 2000
        = some res ∧
      res.interaction.sentiment = some "negative" ∧
      negativeCountOnPost (saveInteraction spikeDb3 res.interaction)
          2000 "o" "p" = 3 ∧
      res.spikeAlerts = 0 ∧
      res.interaction.urgency = none := by
  refine ⟨_, rfl, ?_, ?_, ?_, ?_⟩ <;> decide

end RepMeUp

namespace RepMeUp

/-- C4 (amended): escalation is driven by the count of PERSISTED negative
interactions on the post inside the trailing 24-hour window — the comment
being processed is not yet saved with its negative sentiment when
`checkNegativeSpike` counts, so it is NOT included.  While that persisted
count is below 3 (i.e. up to and including the 3rd negative comment) no
alert is sent and the urgency is untouched; once it reaches 3 (i.e. from
the 4th negative comment on) the triggering run sends exactly one
manager/admin alert (when such a user exists — zero otherwise) and sets
urgency = urgent on the interaction being processed only. -/
theorem processAI_negative_spike (db : List Interaction)
    (interactionId : String) (calls : AICalls) (agents : List String)
    (manager : Option String) (now : Int) (i0 : Interaction) (pid : String)
    (hfind : db.find? (fun r => decide (r.id = interactionId)) = some i0)
    (htype : i0.type = "comment")
    (hneg : (analyzeSentiment calls.sentimentCall).sentiment = "negative")
    (hpost : i0.postId = some pid) :
    ∃ res, processAI db interactionId calls agents manager now = some res ∧
      (negativeCountOnPost db now i0.organization pid < 3 →
        res.spikeAlerts = 0 ∧ res.interaction.urgency = i0.urgency) ∧
      (3 ≤ negativeCountOnPost db now i0.organization pid →
        res.spikeAlerts = (if manager.isSome then 1 else 0) ∧
        res.interaction.urgency = some "urgent") := by
  obtain ⟨he1, he2, he3, he4, he5, he6, he7, he8, he9, he10, he11⟩ :=
    enrichInteraction_fields calls i0
  obtain ⟨hrr, hlabel⟩ := routeInteraction_result db agents
    (generateResponse calls.draftCall).isSome (enrichInteraction calls i0)
  have hr1type :
      (routeInteraction db agents (generateResponse calls.draftCall).isSome
        (enrichInteraction calls i0)).1.type = "comment" := by
    rcases hrr with h | ⟨a, h⟩ <;>
      simp [h, Interaction.assignTo, he6, htype]
  have hr1sent :
      (routeInteraction db agents (generateResponse calls.draftCall).isSome
        (enrichInteraction calls i0)).1.sentiment = some "negative" := by
    rcases hrr with h | ⟨a, h⟩ <;>
      simp [h, Interaction.assignTo, he1, hneg]
  have hr1post :
      (routeInteraction db agents (generateResponse calls.draftCall).isSome
        (enrichInteraction calls i0)).1.postId = some pid := by
    rcases hrr with h | ⟨a, h⟩ <;>
      simp [h, Interaction.assignTo, he8, hpost]
  have hr1org :
      (routeInteraction db agents (generateResponse calls.draftCall).isSome
        (enrichInteraction calls i0)).1.organization = i0.organization := by
    rcases hrr with h | ⟨a, h⟩ <;>
      simp [h, Interaction.assignTo, he7]
  have hr1urg :
      (routeInteraction db agents (generateResponse calls.draftCall).isSome
        (enrichInteraction calls i0)).1.urgency = i0.urgency := by
    rcases hrr with h | ⟨a, h⟩ <;>
      simp [h, Interaction.assignTo, he9]
  simp only [processAI, hfind]
  refine ⟨_, rfl, ?_, ?_⟩
  · intro hlt
    simp only [spikeStep, hr1type, hr1sent, and_self, if_true,
      checkNegativeSpike, hr1post, hr1org]
    rw [if_neg (by omega)]
    exact ⟨rfl, hr1urg⟩
  · intro hge
    simp only [spikeStep, hr1type, hr1sent, and_self, if_true,
      checkNegativeSpike, hr1post, hr1org]
    rw [if_pos hge]
    rcases manager with _ | m <;> exact ⟨rfl, rfl⟩

/-- Collection while the 4th negative comment is being processed: three
fully processed negative comments on post "p" plus the current one. -/
def spikeDb4 : List Interaction :=
  [negRec "a1" 0, negRec "a2" 1000, negRec "a3" 1500, freshRec "a4" 2000]

/-- Witness for the amended C4: processing the 4th negative comment on the
post (three already persisted in the window) sends exactly one alert to
the existing manager and sets urgency = urgent. -/
theorem processAI_negative_spike_witness :
    ∃ res, processAI spikeDb4 "a4" spikeCalls [] (some "mgr") 2000
        = some res ∧
      (negativeCountOnPost spikeDb4 2000 "o" "p" < 3 →
        res.spikeAlerts = 0 ∧
        res.interaction.urgency = (freshRec "a4" 2000).urgency) ∧
      (3 ≤ negativeCountOnPost spikeDb4 2000 "o" "p" →
        res.spikeAlerts = (if (some "mgr" : Option String).isSome then 1 else 0) ∧
        res.interaction.urgency = some "urgent") := by
  have h := processAI_negative_spike spikeDb4 "a4" spikeCalls []
    (some "mgr") 2000 (freshRec "a4" 2000) "p" (by decide) (by decide)
    (by decide) (by decide)
  simpa [freshRec, baseInteraction] using h

end RepMeUp

namespace RepMeUp

theorem insertSorted_head (x : String × Nat) (s : List (String × Nat)) :
    (insertSorted x s).head? = some (match s.head? with
      | none => x
      | some h => if x.2 ≤ h.2 then x else h) := by
  cases s with
  | nil => rfl
  | cons h t =>
    simp only [insertSorted, List.head?_cons]
    split_ifs <;> rfl

theorem sortByCount_head?_none (l : List (String × Nat))
    (h : (sortByCount l).head? = none) : l = [] := by
  cases l with
  | nil => rfl
  | cons x xs =>
    rw [show sortByCount (x :: xs) = insertSorted x (sortByCount xs) from rfl,
      insertSorted_head] at h
    cases h

/-- The head of the stable count-sort is the FIRST element attaining the
minimum count: the list splits around it with every earlier element
strictly greater and every element at least as large. -/
theorem sortByCount_head?_spec (l : List (String × Nat)) (m : String × Nat)
    (h : (sortByCount l).head? = some m) :
    ∃ l₁ l₂, l = l₁ ++ m :: l₂ ∧
      (∀ y ∈ l, m.2 ≤ y.2) ∧ (∀ y ∈ l₁, m.2 < y.2) := by
  induction l generalizing m with
  | nil => cases h
  | cons x xs ih =>
    rw [show sortByCount (x :: xs) = insertSorted x (sortByCount xs) from rfl,
      insertSorted_head] at h
    rcases hx : (sortByCount xs).head? with _ | mh
    · have hxs : xs = [] := sortByCount_head?_none xs hx
      subst hxs
      rw [hx] at h
      injection h with h
      subst h
      exact ⟨[], [], rfl, by simp, by simp⟩
    · rw [hx] at h
      dsimp only at h
      obtain ⟨l₁, l₂, hsplit, hmin, hless⟩ := ih mh hx
      by_cases hle : x.2 ≤ mh.2
      · rw [if_pos hle] at h
        injection h with h
        subst h
        refine ⟨[], xs, rfl, ?_, by simp⟩
        intro y hy
        rcases List.mem_cons.mp hy with rfl | hy
        · exact le_refl _
        · exact le_trans hle (hmin y hy)
      · rw [if_neg hle] at h
        injection h with h
        subst h
        refine ⟨x :: l₁, l₂, by rw [hsplit]; rfl, ?_, ?_⟩
        · intro y hy
          rcases List.mem_cons.mp hy with rfl | hy
          · omega
          · exact hmin y hy
        · intro y hy
          rcases List.mem_cons.mp hy with rfl | hy
          · omega
          · exact hless y hy

end RepMeUp

namespace RepMeUp

/-- Workload fixture: agent "A" has two open interactions, "B" none,
"C" one. -/
def loadDb : List Interaction :=
  [{ baseInteraction with id := "w1", assignedTo := some "A", status := "assigned" },
   { baseInteraction with id := "w2", assignedTo := some "A", status := "unread" },
   { baseInteraction with id := "w3", assignedTo := some "C", status := "assigned" }]

/-- C5: `assignToAgent` assigns to the least-loaded active agent — the
selected agent's open count (status assigned/unread) is minimal, ties are
broken by stable iteration order (every agent listed earlier has a strictly
greater count), the interaction is assigned to it and one notification is
sent; with agents A (2 open), B (0 open), C (1 open) the interaction goes
to B; with no agents the interaction is left untouched and nothing is
sent. -/
theorem assignToAgent_spec :
    (∀ (db : List Interaction) (agents : List String) (i : Interaction),
      agents ≠ [] →
      ∃ sel l₁ l₂, agents = l₁ ++ sel :: l₂ ∧
        (∀ a ∈ agents, workloadCount db sel ≤ workloadCount db a) ∧
        (∀ a ∈ l₁, workloadCount db sel < workloadCount db a) ∧
        (assignToAgent db agents i).1 = i.assignTo sel ∧
        (assignToAgent db agents i).2 = 1) ∧
    ((assignToAgent loadDb ["A", "B", "C"] baseInteraction).1
        = baseInteraction.assignTo "B") ∧
    (∀ (db : List Interaction) (i : Interaction),
      assignToAgent db [] i = (i, 0)) := by
  refine ⟨?_, by decide, fun db i => rfl⟩
  intro db agents i hne
  have hempty : ¬ (agents.isEmpty = true) := by
    simp only [List.isEmpty_iff]
    exact hne
  rcases hh : (sortByCount (agents.map
      (fun a => (a, workloadCount db a)))).head? with _ | sel
  · exact absurd (List.map_eq_nil_iff.mp (sortByCount_head?_none _ hh)) hne
  · obtain ⟨L₁, L₂, hsplit, hmin, hless⟩ := sortByCount_head?_spec _ sel hh
    rw [List.map_eq_append_iff] at hsplit
    obtain ⟨l₁, l₂', hagents, hL₁, hL₂⟩ := hsplit
    rw [List.map_eq_cons_iff] at hL₂
    obtain ⟨a, l₂, hl₂', hfa, hmapl₂⟩ := hL₂
    subst hl₂'
    refine ⟨a, l₁, l₂, hagents, ?_, ?_, ?_, ?_⟩
    · intro b hb
      have := hmin (b, workloadCount db b)
        (by rw [hagents] at hb ⊢
            exact List.mem_map_of_mem _ (by simpa using hb))
      rw [← hfa] at this
      exact this
    · intro b hb
      have := hless (b, workloadCount db b)
        (by rw [← hL₁]; exact List.mem_map_of_mem _ hb)
      rw [← hfa] at this
      exact this
    · unfold assignToAgent
      rw [if_neg hempty]
      simp only [hh, ← hfa]
    · unfold assignToAgent
      rw [if_neg hempty]
      simp only [hh]

/-- Witness for C5: the general selection theorem applied to the concrete
A/B/C workload fixture. -/
theorem assignToAgent_spec_witness :
    ∃ sel l₁ l₂, ["A", "B", "C"] = l₁ ++ sel :: l₂ ∧
      (∀ a ∈ ["A", "B", "C"],
        workloadCount loadDb sel ≤ workloadCount loadDb a) ∧
      (∀ a ∈ l₁, workloadCount loadDb sel < workloadCount loadDb a) ∧
      (assignToAgent loadDb ["A", "B", "C"] baseInteraction).1
          = baseInteraction.assignTo sel ∧
      (assignToAgent loadDb ["A", "B", "C"] baseInteraction).2 = 1 :=
  assignToAgent_spec.1 loadDb ["A", "B", "C"] baseInteraction (by decide)

end RepMeUp

namespace RepMeUp

/-- `platformConnectionSchema.lastError`. -/
structure LastError where
  message : String
  code : String
  timestamp : Int
  deriving Repr, DecidableEq

/-- `platformConnectionSchema.stats`. -/
structure ConnStats where
  totalInteractionsSynced : Nat := 0
  lastSyncCount : Nat := 0
  failedSyncAttempts : Nat := 0
  deriving Repr, DecidableEq

/-- The `PlatformConnection` document fields the sync paths read or write
(`platformData.channelId` for YouTube, `platformData.locationIds` for
Google Business). -/
structure PlatformConnection where
  organization : String
  platform : String
  channelId : Option String := none
  locationIds : List String := []
  stats : ConnStats := {}
  status : String := "connected"
  lastSyncAt : Option Int := none
  lastError : Option LastError := none
  deriving Repr, DecidableEq

/-- `platformConnectionSchema.methods.updateSyncStats`: always stamps
`lastSyncAt`, records the run's count and accumulates the total; on
failure it increments the failure counter and sets status `error`, on
success it resets the counter to 0 and sets status `connected`. -/
def updateSyncStats (c : PlatformConnection) (now : Int) (count : Nat)
    (success : Bool) : PlatformConnection :=
  let c := { c with
    lastSyncAt := some now
    stats := { c.stats with
      lastSyncCount := count
      totalInteractionsSynced := c.stats.totalInteractionsSynced + count } }
  if !success then
    { c with
      stats := { c.stats with
        failedSyncAttempts := c.stats.failedSyncAttempts + 1 }
      status := "error" }
  else
    { c with
      stats := { c.stats with failedSyncAttempts := 0 }
      status := "connected" }

/-- `platformConnectionSchema.methods.logError`: records the last error
(code defaulting to "UNKNOWN") and sets status `error` — it does NOT touch
`stats`. -/
def logError (c : PlatformConnection) (now : Int) (msg : String)
    (code : Option String) : PlatformConnection :=
  { c with
    lastError := some { message := msg, code := code.getD "UNKNOWN",
                        timestamp := now }
    status := "error" }

/-- The per-resource accumulation loop shared by both sync runs: failed
fetches are logged and skipped (`continue`), successful counts are
summed. -/
def accumCounts : List (Except String Nat) → Nat
  | [] => 0
  | .ok k :: rest => k + accumCounts rest
  | .error _ :: rest => accumCounts rest

/-- `YouTubeService.fetchAllChannelComments` as a function of the
connection and the external outcomes: a missing channel id throws, a
failing `getChannelVideos` throws (both land in the `catch`, which calls
`logError` and rethrows); otherwise each video's `fetchVideoComments`
outcome is accumulated (errors skipped) and `updateSyncStats(total, true)`
runs.  Returns the saved connection, the run result, and how many times a
stats/status method was invoked. -/
def fetchAllChannelComments (c : PlatformConnection) (now : Int)
    (videosResult : Except String (List (Except String Nat))) :
    PlatformConnection × Except String Nat × Nat :=
  match c.channelId with
  | none =>
    (logError c now "Channel ID not found in platform connection" none,
     .error "Channel ID not found in platform connection", 1)
  | some _ =>
    match videosResult with
    | .error e => (logError c now e none, .error e, 1)
    | .ok videos =>
      let totalCount := accumCounts videos
      (updateSyncStats c now totalCount true, .ok totalCount, 1)

/-- `GoogleService.fetchAllReviews`: an empty `locationIds` list returns
success IMMEDIATELY — before any stats update; otherwise each location's
`fetchReviews` outcome (given by `f`) is accumulated (errors skipped) and
`updateSyncStats(total, true)` runs. -/
def fetchAllReviews (c : PlatformConnection) (now : Int)
    (f : String → Except String Nat) :
    PlatformConnection × Except String Nat × Nat :=
  match c.locationIds with
  | [] => (c, .ok 0, 0)
  | ids =>
    let totalCount := accumCounts (ids.map f)
    (updateSyncStats c now totalCount true, .ok totalCount, 1)

end RepMeUp

namespace RepMeUp

/-- A connected YouTube connection with a clean failure counter. -/
def ytConn : PlatformConnection :=
  { organization := "o", platform := "youtube", channelId := some "ch" }

/-- A Google connection with no configured locations. -/
def gConn : PlatformConnection :=
  { organization := "o", platform := "google" }

/-- Counterexample to C7 as stated: a failed YouTube sync run
(`getChannelVideos` throws) records the error and sets status = error, but
the failure counter is NOT incremented — the failure path calls `logError`,
which never touches `stats.failedSyncAttempts`; and a Google run with no
configured locations returns success with ZERO stats updates. -/
theorem syncStats_counterexample :
    ((fetchAllChannelComments ytConn 5 (.error "quota exceeded")).1.stats.failedSyncAttempts
        = 0) ∧
    ¬ ((fetchAllChannelComments ytConn 5 (.error "quota exceeded")).1.stats.failedSyncAttempts
        = ytConn.stats.failedSyncAttempts + 1) ∧
    ((fetchAllChannelComments ytConn 5 (.error "quota exceeded")).1.status
        = "error") ∧
    ((fetchAllChannelComments ytConn 5 (.error "quota exceeded")).1.lastError
        = some { message := "quota exceeded", code := "UNKNOWN", timestamp := 5 }) ∧
    ((fetchAllReviews gConn 5 (fun _ => .ok 0)).2.2 = 0) := by
  decide

/-- C7 (amended): a successful sync run updates the stats exactly once —
failure counter reset to 0, status connected, synced count accumulated —
no matter how many individual resource fetches failed; a failed run
records the last error and sets status = error exactly once but leaves the
stats (including the failure counter) UNCHANGED; and a Google run with no
configured locations returns success without touching the connection at
all. -/
theorem syncStats_amended :
    (∀ (c : PlatformConnection) (now : Int) (ch : String)
        (videos : List (Except String Nat)),
      c.channelId = some ch →
      (fetchAllChannelComments c now (.ok videos)).1.stats.failedSyncAttempts
          = 0 ∧
      (fetchAllChannelComments c now (.ok videos)).1.status = "connected" ∧
      (fetchAllChannelComments c now (.ok videos)).1.stats.totalInteractionsSynced
          = c.stats.totalInteractionsSynced + accumCounts videos ∧
      (fetchAllChannelComments c now (.ok videos)).1.stats.lastSyncCount
          = accumCounts videos ∧
      (fetchAllChannelComments c now (.ok videos)).2.2 = 1) ∧
    (∀ (c : PlatformConnection) (now : Int) (ch : String) (e : String),
      c.channelId = some ch →
      (fetchAllChannelComments c now (.error e)).1.stats = c.stats ∧
      (fetchAllChannelComments c now (.error e)).1.status = "error" ∧
      (fetchAllChannelComments c now (.error e)).1.lastError
          = some { message := e, code := "UNKNOWN", timestamp := now } ∧
      (fetchAllChannelComments c now (.error e)).2.2 = 1) ∧
    (∀ (c : PlatformConnection) (now : Int) (f : String → Except String Nat),
      c.locationIds ≠ [] →
      (fetchAllReviews c now f).1.status = "connected" ∧
      (fetchAllReviews c now f).1.stats.failedSyncAttempts = 0 ∧
      (fetchAllReviews c now f).2.2 = 1) ∧
    (∀ (c : PlatformConnection) (now : Int) (f : String → Except String Nat),
      c.locationIds = [] →
      (fetchAllReviews c now f).1 = c ∧ (fetchAllReviews c now f).2.2 = 0) := by
  refine ⟨?_, ?_, ?_, ?_⟩
  · intro c now ch videos h
    simp [fetchAllChannelComments, h, updateSyncStats]
  · intro c now ch e h
    simp [fetchAllChannelComments, h, logError]
  · intro c now f h
    rcases hl : c.locationIds with _ | ⟨x, xs⟩
    · exact absurd hl h
    · simp [fetchAllReviews, hl, updateSyncStats]
  · intro c now f h
    simp [fetchAllReviews, h]

/-- Witness for the amended C7: concrete success and failure runs, plus
the empty-locations Google run. -/
theorem syncStats_amended_witness :
    ((fetchAllChannelComments ytConn 5 (.ok [.ok 2, .error "x", .ok 3])).1.stats.failedSyncAttempts
        = 0 ∧
     (fetchAllChannelComments ytConn 5 (.ok [.ok 2, .error "x", .ok 3])).1.status
        = "connected" ∧
     (fetchAllChannelComments ytConn 5 (.ok [.ok 2, .error "x", .ok 3])).1.stats.totalInteractionsSynced
        = ytConn.stats.totalInteractionsSynced
            + accumCounts [.ok 2, .error "x", .ok 3] ∧
     (fetchAllChannelComments ytConn 5 (.ok [.ok 2, .error "x", .ok 3])).1.stats.lastSyncCount
        = accumCounts [.ok 2, .error "x", .ok 3] ∧
     (fetchAllChannelComments ytConn 5 (.ok [.ok 2, .error "x", .ok 3])).2.2 = 1) ∧
    ((fetchAllChannelComments ytConn 7 (.error "boom")).1.stats = ytConn.stats ∧
     (fetchAllChannelComments ytConn 7 (.error "boom")).1.status = "error" ∧
     (fetchAllChannelComments ytConn 7 (.error "boom")).1.lastError
        = some { message := "boom", code := "UNKNOWN", timestamp := 7 } ∧
     (fetchAllChannelComments ytConn 7 (.error "boom")).2.2 = 1) ∧
    ((fetchAllReviews gConn 5 (fun _ => .ok 0)).1 = gConn ∧
     (fetchAllReviews gConn 5 (fun _ => .ok 0)).2.2 = 0) :=
  ⟨syncStats_amended.1 ytConn 5 "ch" [.ok 2, .error "x", .ok 3] rfl,
   syncStats_amended.2.1 ytConn 7 "ch" "boom" rfl,
   syncStats_amended.2.2.2 gConn 5 (fun _ => .ok 0) rfl⟩

end RepMeUp

namespace RepMeUp

/-- One review object of a Google Business `reviews` response. -/
structure GReview where
  reviewId : String
  starRating : Option Nat := none
  comment : Option String := none
  reviewerName : Option String := none
  createTime : Option Int := none
  deriving Repr, DecidableEq

/-- The Interaction draft `GoogleService.fetchReviews` builds from one
review: platform `google`, type `review`, `status: 'unread'`,
`isRead: false`, content defaulting to the empty string, author
defaulting to "Anonymous", `rating: review.starRating || null` (0 is
falsy), and the rating-derived sentiment — set only when a (truthy)
rating exists: ≥ 4 positive, ≤ 2 negative, otherwise neutral.  (The
generated Mongo `_id` is opaque; the review id stands in for it, nothing
in the claims reads it.) -/
def mkReviewInteraction (org locId : String) (rv : GReview) : Interaction :=
  { id := rv.reviewId
    organization := org
    platform := "google"
    type := "review"
    platformId := rv.reviewId
    content := rv.comment.getD ""
    authorName := some (rv.reviewerName.getD "Anonymous")
    authorUsername := some (rv.reviewerName.getD "Anonymous")
    locationId := some locId
    status := "unread"
    isRead := false
    platformCreatedAt := rv.createTime.getD 0
    rating := match rv.starRating with
      | some n => if n ≠ 0 then some n else none
      | none => none
    sentiment := match rv.starRating with
      | some n =>
        if n ≠ 0 then
          if 4 ≤ n then some "positive"
          else if n ≤ 2 then some "negative"
          else some "neutral"
        else none
      | none => none }

/-- The per-review loop of `GoogleService.fetchReviews`: a malformed item
(`none`, whose processing throws) is logged and skipped; an item whose
`(platformId, organization)` pair already exists in the collection is
skipped silently; the rest become drafts in input order.  The dedup check
runs against the collection as it was when the call started — the
`insertMany` happens only at the end.  Returns (drafts, per-item errors
logged). -/
def reviewLoop (db : List Interaction) (org locId : String) :
    List (Option GReview) → List Interaction × Nat
  | [] => ([], 0)
  | none :: rest =>
    let r := reviewLoop db org locId rest
    (r.1, r.2 + 1)
  | some rv :: rest =>
    let r := reviewLoop db org locId rest
    if (db.find? (fun x =>
        x.platformId = rv.reviewId ∧ x.organization = org)).isSome then
      (r.1, r.2)
    else
      (mkReviewInteraction org locId rv :: r.1, r.2)

/-- `GoogleService.fetchReviews` over the explicit collection: run the
loop, then `insertMany` the drafts.  Returns the new collection, the
created count, and the per-item errors logged. -/
def fetchReviews (db : List Interaction) (org locId : String)
    (reviews : List (Option GReview)) : List Interaction × Nat × Nat :=
  let r := reviewLoop db org locId reviews
  (db ++ r.1, r.1.length, r.2)

/-- A five-star review payload. -/
def r5 : GReview := { reviewId := "r1", starRating := some 5, comment := some "great place" }

/-- C9: the star rating deterministically pre-classifies sentiment before
AI enrichment — ≥ 4 positive, ≤ 2 negative, 3 neutral; a five-star review
with no prior record yields one newly created Interaction with sentiment
positive and status unread; a second delivery of the identical review
creates no new record, leaving the organization's Interaction count
unchanged. -/
theorem reviewRating_spec :
    (∀ (org locId : String) (rv : GReview) (n : Nat),
      rv.starRating = some n → 4 ≤ n →
      (mkReviewInteraction org locId rv).sentiment = some "positive") ∧
    (∀ (org locId : String) (rv : GReview) (n : Nat),
      rv.starRating = some n → n ≠ 0 → n ≤ 2 →
      (mkReviewInteraction org locId rv).sentiment = some "negative") ∧
    (∀ (org locId : String) (rv : GReview),
      rv.starRating = some 3 →
      (mkReviewInteraction org locId rv).sentiment = some "neutral") ∧
    ((fetchReviews [] "o" "loc1" [some r5]).1.length = 1 ∧
     (fetchReviews [] "o" "loc1" [some r5]).2.1 = 1 ∧
     ((fetchReviews [] "o" "loc1" [some r5]).1
        = [mkReviewInteraction "o" "loc1" r5]) ∧
     ((mkReviewInteraction "o" "loc1" r5).sentiment = some "positive") ∧
     ((mkReviewInteraction "o" "loc1" r5).status = "unread") ∧
     (fetchReviews (fetchReviews [] "o" "loc1" [some r5]).1 "o" "loc1"
        [some r5]).1 = (fetchReviews [] "o" "loc1" [some r5]).1 ∧
     ((fetchReviews (fetchReviews [] "o" "loc1" [some r5]).1 "o" "loc1"
        [some r5]).1.countP (fun r => r.organization = "o")
        = (fetchReviews [] "o" "loc1" [some r5]).1.countP
            (fun r => r.organization = "o"))) := by
  refine ⟨?_, ?_, ?_, ?_⟩
  · intro org locId rv n h h4
    simp only [mkReviewInteraction, h]
    rw [if_pos (by omega), if_pos h4]
  · intro org locId rv n h h0 h2
    simp only [mkReviewInteraction, h]
    rw [if_pos h0, if_neg (by omega), if_pos h2]
  · intro org locId rv h
    simp only [mkReviewInteraction, h]
    rfl
  · refine ⟨rfl, rfl, ?_, ?_, ?_, ?_, ?_⟩ <;> decide

/-- Witness for C9: the rating rules applied at concrete ratings 5, 1
and 3. -/
theorem reviewRating_spec_witness :
    (mkReviewInteraction "o" "loc1" r5).sentiment = some "positive" ∧
    (mkReviewInteraction "o" "loc1"
      { reviewId := "r2", starRating := some 1 }).sentiment
        = some "negative" ∧
    (mkReviewInteraction "o" "loc1"
      { reviewId := "r3", starRating := some 3 }).sentiment
        = some "neutral" :=
  ⟨reviewRating_spec.1 "o" "loc1" r5 5 rfl (by omega),
   reviewRating_spec.2.1 "o" "loc1" { reviewId := "r2", starRating := some 1 }
     1 rfl (by omega) (by omega),
   reviewRating_spec.2.2.1 "o" "loc1"
     { reviewId := "r3", starRating := some 3 } rfl⟩

end RepMeUp

namespace RepMeUp

/-- The keyword lists `fetchVideoComments` scans for its basic sentiment
guess. -/
def positiveWords : List String :=
  ["great", "awesome", "love", "amazing", "excellent", "good", "nice", "perfect"]

/-- See `positiveWords`. -/
def negativeWords : List String :=
  ["bad", "terrible", "hate", "awful", "worst", "disappointed", "poor"]

/-- The inline keyword-based sentiment of `fetchVideoComments`: lowercase
the text, positive words win over negative ones, default neutral. -/
def keywordSentiment (text : String) : String :=
  let t := jsToLower text
  if positiveWords.any (fun w => includes t w) then "positive"
  else if negativeWords.any (fun w => includes t w) then "negative"
  else "neutral"

/-- One reply of a YouTube comment thread (`thread.replies.comments`);
a malformed reply is `none` in the batch list. -/
structure YTReply where
  id : String
  text : String
  authorName : Option String := none
  publishedAt : Int := 0
  deriving Repr, DecidableEq

/-- One YouTube comment thread; a malformed thread is `none` in the batch
list (in the source, accessing `thread.snippet.topLevelComment` throws and
the per-item `catch` logs and `continue`s). -/
structure YTThread where
  id : String
  text : String
  authorName : Option String := none
  totalReplyCount : Nat := 0
  replies : List (Option YTReply) := []
  publishedAt : Int := 0
  deriving Repr, DecidableEq

/-- The draft `fetchVideoComments` builds from a top-level comment. -/
def mkThreadInteraction (org videoId : String) (t : YTThread) : Interaction :=
  { id := t.id
    organization := org
    platform := "youtube"
    type := "comment"
    platformId := t.id
    content := t.text
    authorName := some (t.authorName.getD "Anonymous")
    authorUsername := some (t.authorName.getD "Anonymous")
    threadId := some t.id
    videoId := some videoId
    status := "unread"
    isRead := false
    sentiment := some (keywordSentiment t.text)
    platformCreatedAt := t.publishedAt }

/-- The draft `fetchVideoComments` builds from a reply (sentiment fixed to
neutral, parent linkage kept). -/
def mkReplyInteraction (org videoId parentId : String)
    (rep : YTReply) : Interaction :=
  { id := rep.id
    organization := org
    platform := "youtube"
    type := "comment"
    platformId := rep.id
    content := rep.text
    authorName := some (rep.authorName.getD "Anonymous")
    authorUsername := some (rep.authorName.getD "Anonymous")
    parentId := some parentId
    threadId := some parentId
    videoId := some videoId
    status := "unread"
    isRead := false
    sentiment := some "neutral"
    platformCreatedAt := rep.publishedAt }

/-- The inner reply loop: malformed replies are logged and skipped,
already-persisted replies skipped silently, the rest become drafts in
order. -/
def replyLoop (db : List Interaction) (org videoId parentId : String) :
    List (Option YTReply) → List Interaction × Nat
  | [] => ([], 0)
  | none :: rest =>
    let r := replyLoop db org videoId parentId rest
    (r.1, r.2 + 1)
  | some rep :: rest =>
    let r := replyLoop db org videoId parentId rest
    if (db.find? (fun x =>
        x.platformId = rep.id ∧ x.organization = org)).isSome then
      (r.1, r.2)
    else
      (mkReplyInteraction org videoId parentId rep :: r.1, r.2)

/-- Process one thread of the batch: a malformed item yields one logged
error and nothing else; an already-persisted thread is skipped whole
(`continue` skips its replies too); otherwise the top-level draft followed
by the reply drafts. -/
def threadItem (db : List Interaction) (org videoId : String) :
    Option YTThread → List Interaction × Nat
  | none => ([], 1)
  | some t =>
    if (db.find? (fun x =>
        x.platformId = t.id ∧ x.organization = org)).isSome then
      ([], 0)
    else
      let r := replyLoop db org videoId t.id t.replies
      (mkThreadInteraction org videoId t :: r.1, r.2)

/-- The outer loop of `fetchVideoComments`, in input order.  Every dedup
check runs against the collection as it was at call start — `insertMany`
happens at the end. -/
def threadLoop (db : List Interaction) (org videoId : String) :
    List (Option YTThread) → List Interaction × Nat
  | [] => ([], 0)
  | th :: rest =>
    let a := threadItem db org videoId th
    let b := threadLoop db org videoId rest
    (a.1 ++ b.1, a.2 + b.2)

/-- `YouTubeService.fetchVideoComments` over the explicit collection (the
thread batch is the already-fetched API response): loop, then insert.
Returns the new collection, the created count, and the per-item errors
logged. -/
def fetchVideoComments (db : List Interaction) (org videoId : String)
    (threads : List (Option YTThread)) : List Interaction × Nat × Nat :=
  let r := threadLoop db org videoId threads
  (db ++ r.1, r.1.length, r.2)

theorem threadLoop_append (db : List Interaction) (org videoId : String)
    (xs ys : List (Option YTThread)) :
    threadLoop db org videoId (xs ++ ys)
      = ((threadLoop db org videoId xs).1 ++ (threadLoop db org videoId ys).1,
         (threadLoop db org videoId xs).2 + (threadLoop db org videoId ys).2) := by
  induction xs with
  | nil => simp [threadLoop]
  | cons x xs ih =>
    simp [threadLoop, ih, List.append_assoc]
    omega

theorem threadLoop_clean (db : List Interaction) (org videoId : String)
    (l : List (Option YTThread))
    (hwf : ∀ x ∈ l, ∃ t, x = some t ∧ t.replies = [] ∧
      (db.find? (fun r =>
        r.platformId = t.id ∧ r.organization = org)).isSome = false) :
    (threadLoop db org videoId l).1.length = l.length ∧
    (threadLoop db org videoId l).2 = 0 := by
  induction l with
  | nil => exact ⟨rfl, rfl⟩
  | cons x xs ih =>
    obtain ⟨ih1, ih2⟩ := ih (fun y hy => hwf y (List.mem_cons_of_mem x hy))
    obtain ⟨t, rfl, hrep, hmiss⟩ := hwf x (List.mem_cons_self x xs)
    simp only [threadLoop, threadItem, hmiss, Bool.false_eq_true, if_false,
      hrep, replyLoop]
    simp [ih1, ih2]

end RepMeUp

namespace RepMeUp

/-- An Instagram direct message from a webhook `changes` entry
(`change.value` when `change.field === 'messages'`); `message.from.id` is
accessed without optional chaining, so a payload missing it throws and is
modelled as a missing (`none`) message view. -/
structure IgMessage where
  id : String
  text : String
  fromId : String
  fromUsername : Option String := none
  conversationId : Option String := none
  timestamp : Int := 0
  deriving Repr, DecidableEq

/-- The update document of the Instagram DM upsert in
`handleInstagramWebhook`. -/
def igDmSet (organizationId : String) (m : IgMessage)
    (r : Interaction) : Interaction :=
  { r with
    organization := organizationId
    platform := "instagram"
    type := "dm"
    platformId := m.id
    content := m.text
    authorPlatformId := some m.fromId
    authorUsername := m.fromUsername
    threadId := m.conversationId
    platformCreatedAt := m.timestamp
    status := "unread" }

/-- Fresh document for a DM upsert miss. -/
def igDmNew (organizationId : String) (m : IgMessage)
    (freshId : String) (now : Int) : Interaction :=
  igDmSet organizationId m
    { id := freshId, organization := "", platform := "", type := ""
      platformId := "", content := "", createdAt := now }

/-- The DM `findOneAndUpdate({ platformId: message.id }, …, { upsert: true,
new: true })` — same platformId-only keying as the comment upsert. -/
def igDmUpsert (db : List Interaction) (organizationId : String)
    (m : IgMessage) (freshId : String) (now : Int) :
    List Interaction × Interaction :=
  match db.find? (fun r => r.platformId = m.id) with
  | some r =>
    (updateFirst (fun r => r.platformId = m.id) (igDmSet organizationId m) db,
     igDmSet organizationId m r)
  | none =>
    (db ++ [igDmNew organizationId m freshId now],
     igDmNew organizationId m freshId now)

/-- One entry of an Instagram webhook `changes` array: the raw
`change.value` is kept as the view matching `field` (`comment` for
`comments`, `message` for `messages`); `none` models a value whose member
access throws a `TypeError`. -/
structure IgChange where
  field : String
  comment : Option IgComment := none
  message : Option IgMessage := none
  deriving Repr, DecidableEq

/-- The `for (const change of entry.changes)` loop of
`handleInstagramWebhook`: the FIRST change whose field is `comments` or
`messages` is upserted and the function RETURNS; a throw inside the loop
propagates (the handler's `catch` logs and rethrows, failing the whole
delivery); changes with other fields are skipped. -/
def igChangesLoop (db : List Interaction) (organizationId : String)
    (freshId : String) (now : Int) :
    List IgChange → Except String (List Interaction × Option Interaction)
  | [] => .ok (db, none)
  | ch :: rest =>
    if ch.field = "comments" then
      match ch.comment with
      | none => .error "TypeError"
      | some c =>
        .ok ((igUpsert db organizationId c freshId now).1,
             some (igUpsert db organizationId c freshId now).2)
    else if ch.field = "messages" then
      match ch.message with
      | none => .error "TypeError"
      | some m =>
        .ok ((igDmUpsert db organizationId m freshId now).1,
             some (igDmUpsert db organizationId m freshId now).2)
    else igChangesLoop db organizationId freshId now rest

/-- `handleInstagramWebhook` (src/jobs/processWebhook.js): only
`payload.entry[0]` is read; a payload without entries returns `null`. -/
def handleInstagramWebhook (db : List Interaction) (organizationId : String)
    (entries : List (List IgChange)) (freshId : String) (now : Int) :
    Except String (List Interaction × Option Interaction) :=
  match entries with
  | [] => .ok (db, none)
  | changes :: _ => igChangesLoop db organizationId freshId now changes

/-- A well-formed Instagram comment change. -/
def goodChange (cid : String) : IgChange :=
  { field := "comments", comment := some { id := cid, text := "hi" } }

/-- Counterexample to C8 as stated: the Instagram webhook handler is an
adapter that does NOT isolate batch items — a 2-change delivery whose
first comment change is malformed aborts whole with an error (0 drafts
instead of N-1 = 1 plus one logged error), and even a fully well-formed
2-change delivery produces a single draft, because the handler returns
after the first relevant change. -/
theorem batch_isolation_counterexample :
    (handleInstagramWebhook [] "o" [[{ field := "comments" }, goodChange "c2"]]
        "f" 0 = .error "TypeError") ∧
    ((handleInstagramWebhook [] "o" [[goodChange "c1", goodChange "c2"]]
        "f" 0).toOption.map (fun p => p.1.length) = some 1) := by
  exact ⟨rfl, rfl⟩

/-- C8 (amended): batch partial-failure isolation holds for the YouTube
comment adapter — a batch of fresh, reply-free items with exactly one
malformed one yields a draft per well-formed item in unchanged order plus
exactly one logged error; the Instagram webhook handler, by contrast,
processes only the first comments/messages change of a delivery, aborting
it whole when that change is malformed. -/
theorem batch_isolation_amended :
    (∀ (db : List Interaction) (org videoId : String)
        (l₁ l₂ : List (Option YTThread)),
      (∀ x ∈ l₁ ++ l₂, ∃ t, x = some t ∧ t.replies = [] ∧
        (db.find? (fun r =>
          r.platformId = t.id ∧ r.organization = org)).isSome = false) →
      (fetchVideoComments db org videoId (l₁ ++ none :: l₂)).2.1
          = l₁.length + l₂.length ∧
      (fetchVideoComments db org videoId (l₁ ++ none :: l₂)).2.2 = 1 ∧
      (fetchVideoComments db org videoId (l₁ ++ none :: l₂)).1
          = db ++ ((threadLoop db org videoId l₁).1
              ++ (threadLoop db org videoId l₂).1)) ∧
    (∀ (db : List Interaction) (org freshId : String) (now : Int)
        (rest : List IgChange),
      igChangesLoop db org freshId now ({ field := "comments" } :: rest)
        = .error "TypeError") ∧
    (∀ (db : List Interaction) (org freshId : String) (now : Int)
        (c : IgComment) (rest : List IgChange),
      igChangesLoop db org freshId now
          ({ field := "comments", comment := some c } :: rest)
        = .ok ((igUpsert db org c freshId now).1,
               some (igUpsert db org c freshId now).2)) := by
  refine ⟨?_, ?_, ?_⟩
  · intro db org videoId l₁ l₂ hwf
    have h1 := threadLoop_clean db org videoId l₁
      (fun y hy => hwf y (List.mem_append_left _ hy))
    have h2 := threadLoop_clean db org videoId l₂
      (fun y hy => hwf y (List.mem_append_right _ hy))
    have hmid : threadLoop db org videoId (none :: l₂)
        = ((threadLoop db org videoId l₂).1,
           1 + (threadLoop db org videoId l₂).2) := by
      simp [threadLoop, threadItem]
    refine ⟨?_, ?_, ?_⟩
    · simp [fetchVideoComments, threadLoop_append, hmid, h1.1, h2.1]
    · simp [fetchVideoComments, threadLoop_append, hmid, h1.2, h2.2]
    · simp [fetchVideoComments, threadLoop_append, hmid]
  · intro db org freshId now rest
    rfl
  · intro db org freshId now c rest
    rfl

/-- Witness for the amended C8: a concrete 3-thread batch whose middle
item is malformed yields 2 drafts and one error, and the concrete
Instagram behaviors. -/
theorem batch_isolation_amended_witness :
    ((fetchVideoComments [] "o" "v1"
        [some { id := "t1", text := "good" }, none,
         some { id := "t2", text := "bad" }]).2.1 = 1 + 1 ∧
     (fetchVideoComments [] "o" "v1"
        [some { id := "t1", text := "good" }, none,
         some { id := "t2", text := "bad" }]).2.2 = 1 ∧
     (fetchVideoComments [] "o" "v1"
        [some { id := "t1", text := "good" }, none,
         some { id := "t2", text := "bad" }]).1
        = [] ++ ((threadLoop [] "o" "v1"
              [some { id := "t1", text := "good" }]).1
            ++ (threadLoop [] "o" "v1"
              [some { id := "t2", text := "bad" }]).1)) ∧
    (igChangesLoop [] "o" "f" 0 [{ field := "comments" }]
        = .error "TypeError") ∧
    (igChangesLoop [] "o" "f" 0 [goodChange "c1"]
        = .ok ((igUpsert [] "o" { id := "c1", text := "hi" } "f" 0).1,
               some (igUpsert [] "o" { id := "c1", text := "hi" } "f" 0).2)) :=
  ⟨batch_isolation_amended.1 [] "o" "v1"
      [some { id := "t1", text := "good" }] [some { id := "t2", text := "bad" }]
      (by decide),
   batch_isolation_amended.2.1 [] "o" "f" 0 [],
   batch_isolation_amended.2.2 [] "o" "f" 0 { id := "c1", text := "hi" } []⟩

end RepMeUp
